import Mathlib

/-!
Shallow embedding of `src/server.py`, the Inventory Optimization MCP server.

Modelling conventions:

* Python floats (IEEE doubles) are rationals, so numeric record fields, demand
  draws and the inventory state are modelled over `ℚ`; exact arithmetic stands
  in for floating-point arithmetic.  `np.std` takes a real square root, so
  standard deviations live in `ℝ`.
* A Python dict record is modelled by a structure holding the one field the
  code accesses, as an `Option`: `none` models a record lacking the field
  (`record['demand']` / `record['quantity']` raising `KeyError`).
* `np.mean` / `np.std` of an *empty* sequence do not raise in NumPy; they
  return NaN (with a runtime warning).  NaN is modelled as `none`.
* The external HTTP fetch in `optimize_safety_stock` is modelled by an
  `Upstream` input value: either a transport failure (`aiohttp.ClientError`)
  or a response with a status code and a parsed JSON body.
* All failure paths of `optimize_safety_stock` re-raise `Exception` values
  whose message strings have pairwise distinct fixed prefixes; each prefix
  class is modelled by one constructor of `ErpError`.  The missing-`quantity`
  failure of `simulate_lead_time` is an uncaught Python `KeyError`, a type
  distinct from `Exception`; it is modelled by the separate type `SimError`.
* `np.random.normal(avg, std)`, drawn once per simulated day, is modelled by
  an oracle `draws : ℕ → ℚ` supplying the realized daily demand samples; the
  distribution parameters (mean/std of the caller's demand quantities) are
  not fed back into the model because the simulated trajectory depends only
  on the realized draws.
* `datetime.now()` is modelled by a day-granularity start date `startDate : ℕ`;
  the date recorded for simulated day `d` is `startDate + d`.
* Python's `round(x, 2)` is modelled as `round (x * 100) / 100` (exact
  arithmetic; the half-to-even tie rule differs from `round` only on exact
  half-cent values, which no claim exercises).
-/

/-- One record of the historical-demand JSON payload consumed by
`optimize_safety_stock` (source comment: `[{"date": ..., "demand": 10}, ...]`).
Only the accessed field `demand` is modelled; `none` models a record lacking
the field. -/
structure HistoricalRecord where
  demand : Option ℚ
deriving DecidableEq

/-- One caller-supplied daily demand record for `simulate_lead_time`
(fields `date` and `quantity`; only `quantity` is accessed). -/
structure DemandRecord where
  quantity : Option ℚ
deriving DecidableEq

/-- `np.mean` on a non-empty sequence: sum divided by the sample size. -/
def npMean (l : List ℚ) : ℚ := l.sum / (l.length : ℚ)

/-- The variance computed by `np.std` (default `ddof=0`): mean of squared
deviations from the mean, dividing by the sample size `n`. -/
def npVar (l : List ℚ) : ℚ :=
  (l.map (fun x => (x - npMean l) ^ 2)).sum / (l.length : ℚ)

/-- `np.std` on a non-empty sequence: square root of `npVar`. -/
noncomputable def npStd (l : List ℚ) : ℝ := Real.sqrt ((npVar l : ℚ) : ℝ)

/-- `np.mean`, including its behaviour on an empty sequence: NumPy returns
NaN (modelled `none`) instead of raising. -/
def npMeanNan (l : List ℚ) : Option ℚ :=
  if l.isEmpty then none else some (npMean l)

/-- `np.std`, including its NaN-on-empty behaviour, modelled as `none`. -/
noncomputable def npStdNan (l : List ℚ) : Option ℝ :=
  if l.isEmpty then none else some (npStd l)

/-- Python `round(x, 2)` on a float result (`ℝ`-valued quantities). -/
noncomputable def round2 (x : ℝ) : ℝ := ((round (x * 100) : ℤ) : ℝ) / 100

/-- Python `round(x, 2)` on a rational-valued quantity. -/
def round2q (x : ℚ) : ℚ := ((round (x * 100) : ℤ) : ℚ) / 100

/-- A Python list comprehension `[f(record) for record in l]` that indexes a
field: it produces the list of field values, or fails (`KeyError`) as soon as
some record lacks the field. -/
def pluckQ {α : Type} (f : α → Option ℚ) : List α → Option (List ℚ)
  | [] => some []
  | r :: rs =>
    match f r with
    | none => none
    | some q => Option.map (fun qs => q :: qs) (pluckQ f rs)

/-- The result dictionary returned by `optimize_safety_stock`
(source lines 71-78). -/
structure SafetyStockResult where
  item_id : String
  safety_stock : ℝ
  average_demand : ℚ
  std_demand : ℝ
  service_level : ℚ
  data_points : ℕ

/-- The failure classes of `optimize_safety_stock`.  In the source every
failure is finally re-raised as a plain `Exception`; the classes are
distinguished by fixed message prefixes:

* `clientError msg` — `aiohttp.ClientError`, message
  `"Error connecting to historical data API: " ++ msg` (lines 91-94);
* `httpError status` — non-200 status, message
  `"Unexpected error: Failed to fetch historical data: HTTP <status>"`
  (lines 40-43, re-wrapped at 95-98);
* `emptyData` — empty JSON body, message
  `"Unexpected error: No historical data received from API"` (48-51, 95-98);
* `invalidFormat field` — a record lacking `field`, message
  `"Unexpected error: Invalid data format in historical records: ..."`
  (82-85, 95-98);
* `processingError msg` — the (unreachable) empty-`demands` guard at 59-62,
  wrapped by 86-89 then 95-98. -/
inductive ErpError where
  | clientError (msg : String)
  | httpError (status : ℕ)
  | emptyData
  | invalidFormat (field : String)
  | processingError (msg : String)
deriving DecidableEq

/-- The outcome of the external historical-data fetch (lines 34-46):
either the HTTP client raises, or a response with a status code and a
parsed JSON body arrives. -/
inductive Upstream where
  | clientError (msg : String)
  | response (status : ℕ) (body : List HistoricalRecord)

/-- `optimize_safety_stock` (source lines 17-98), with the external fetch
reified as the `up : Upstream` input.  Mirrors the control flow: non-200
status check, empty-body check, `demand` extraction, the (dead) empty-demands
guard, then the statistics and the result dictionary with
`z_score = 1.96` fixed and `desired_service_level` echoed verbatim. -/
noncomputable def optimize_safety_stock (item_id : String) (desired_service_level : ℚ)
    (up : Upstream) : Except ErpError SafetyStockResult :=
  match up with
  | Upstream.clientError msg => Except.error (ErpError.clientError msg)
  | Upstream.response status body =>
    if status ≠ 200 then
      Except.error (ErpError.httpError status)
    else if body.isEmpty then
      Except.error ErpError.emptyData
    else
      match pluckQ HistoricalRecord.demand body with
      | none => Except.error (ErpError.invalidFormat "demand")
      | some demands =>
        if demands.isEmpty then
          Except.error (ErpError.processingError "No demand data found in historical records")
        else
          Except.ok
            { item_id := item_id,
              safety_stock := round2 ((1.96 : ℝ) * npStd demands),
              average_demand := round2q (npMean demands),
              std_demand := round2 (npStd demands),
              service_level := desired_service_level,
              data_points := body.length }

/-- The failure of `simulate_lead_time`: the list comprehension at line 120
raises an uncaught Python `KeyError` when a record lacks `quantity`. -/
inductive SimError where
  | keyError (field : String)
deriving DecidableEq

/-- One entry of the simulated day sequence (source lines 136-139):
the date `start_date + timedelta(days=day)` (modelled at day granularity)
and the recorded inventory level, rounded to 2 decimals. -/
structure SimDay where
  date : ℕ
  inventory_level : ℚ
deriving DecidableEq

/-- The result dictionary of `simulate_lead_time` (source lines 141-146).
`none` in the statistics fields models NaN. -/
structure SimResult where
  item_id : String
  average_lead_time : Option ℚ
  std_lead_time : Option ℝ
  simulation_results : List SimDay

/-- One iteration of the day loop (source lines 127-134): subtract the drawn
demand from the inventory, then replenish by exactly 100 when the result is
strictly below the reorder threshold 20. -/
def simStep (inv demand : ℚ) : ℚ :=
  if inv - demand < 20 then inv - demand + 100 else inv - demand

/-- `current_inventory` before simulated day `n` (equivalently, after the
first `n` loop iterations); the starting inventory is 100 (line 125).
Note the recorded level is rounded, but the running state is not. -/
def invAfter (draws : ℕ → ℚ) : ℕ → ℚ
  | 0 => 100
  | n + 1 => simStep (invAfter draws n) (draws n)

/-- `simulate_lead_time` (source lines 100-146).  Lead-time statistics are
computed (NaN for an empty list), `quantity` extraction can raise `KeyError`,
and the 30-day loop records one `SimDay` per day.  The computed daily-demand
mean/std only parameterize the random draws, which the oracle `draws`
supplies directly. -/
noncomputable def simulate_lead_time (item_id : String) (lead_times : List ℤ)
    (demand_data : List DemandRecord) (startDate : ℕ) (draws : ℕ → ℚ) :
    Except SimError SimResult :=
  match pluckQ DemandRecord.quantity demand_data with
  | none => Except.error (SimError.keyError "quantity")
  | some _ =>
    Except.ok
      { item_id := item_id,
        average_lead_time :=
          Option.map round2q (npMeanNan (lead_times.map (fun z => (z : ℚ)))),
        std_lead_time :=
          Option.map round2 (npStdNan (lead_times.map (fun z => (z : ℚ)))),
        simulation_results := (List.range 30).map (fun day =>
          { date := startDate + day,
            inventory_level := round2q (invAfter draws (day + 1)) }) }

/-- The spec's error taxonomy (§7), kinds rather than concrete types. -/
inductive ErrKind where
  | upstreamUnavailable
  | emptyData
  | malformedRecord
  | processing
deriving DecidableEq

/-- Maps each concrete failure of `optimize_safety_stock` to the spec's
error kind (§7). -/
def errKind : ErpError → ErrKind
  | ErpError.clientError _ => ErrKind.upstreamUnavailable
  | ErpError.httpError _ => ErrKind.upstreamUnavailable
  | ErpError.emptyData => ErrKind.emptyData
  | ErpError.invalidFormat _ => ErrKind.malformedRecord
  | ErpError.processingError _ => ErrKind.processing

/-- The spec-side classification of an upstream outcome (§7): which error
kind, if any, a call seeing this outcome must fail with. -/
def causeKind : Upstream → Option ErrKind
  | Upstream.clientError _ => some ErrKind.upstreamUnavailable
  | Upstream.response status body =>
    if status ≠ 200 then some ErrKind.upstreamUnavailable
    else if body.isEmpty then some ErrKind.emptyData
    else if body.any (fun r => r.demand.isNone) then some ErrKind.malformedRecord
    else none

/-- Modelled from the spec (§4.1): the population mean of a sequence of
demand values — sum divided by the sample size. -/
def specPopMean (l : List ℚ) : ℚ := l.sum / (l.length : ℚ)

/-- Modelled from the spec (§4.1): the population standard deviation —
square root of the mean squared deviation, dividing by the sample size `n`
(not `n - 1`), with the division taken in `ℝ`. -/
noncomputable def specPopStd (l : List ℚ) : ℝ :=
  Real.sqrt ((((l.map (fun x => (x - specPopMean l) ^ 2)).sum : ℚ) : ℝ) / (l.length : ℝ))

theorem pluckQ_length {α : Type} (f : α → Option ℚ) :
    ∀ (l : List α) (qs : List ℚ), pluckQ f l = some qs → qs.length = l.length := by
  intro l
  induction l with
  | nil =>
    intro qs h
    simp [pluckQ] at h
    simp [h.symm]
  | cons r rs ih =>
    intro qs h
    simp only [pluckQ] at h
    cases hf : f r with
    | none => rw [hf] at h; simp at h
    | some q =>
      rw [hf] at h
      cases hrec : pluckQ f rs with
      | none => rw [hrec] at h; simp at h
      | some qs0 =>
        rw [hrec] at h
        simp only [Option.map_some', Option.some.injEq] at h
        rw [← h]
        simp [ih qs0 hrec]

theorem pluckQ_eq_none_iff {α : Type} (f : α → Option ℚ) (l : List α) :
    pluckQ f l = none ↔ ∃ r ∈ l, f r = none := by
  induction l with
  | nil => simp [pluckQ]
  | cons r rs ih =>
    simp only [pluckQ]
    cases hf : f r with
    | none => simp [hf]
    | some q =>
      cases hrec : pluckQ f rs with
      | some qs0 => simp [hf, hrec, ih.symm]
      | none =>
        simp only [hrec, Option.map_none', true_iff, List.mem_cons]
        obtain ⟨r0, hr0, hn0⟩ := ih.mp hrec
        exact ⟨r0, Or.inr hr0, hn0⟩

theorem pluckQ_exists_of_isSome {α : Type} (f : α → Option ℚ) (l : List α)
    (h : ∀ r ∈ l, (f r).isSome) : ∃ qs, pluckQ f l = some qs := by
  cases hp : pluckQ f l with
  | some qs => exact ⟨qs, rfl⟩
  | none =>
    obtain ⟨r, hr, hn⟩ := (pluckQ_eq_none_iff f l).mp hp
    have hs := h r hr
    rw [hn] at hs
    simp at hs

theorem round_eq_of_bounds (x : ℝ) (z : ℤ) (h1 : (z : ℝ) ≤ x + 1 / 2)
    (h2 : x + 1 / 2 < z + 1) : round x = z := by
  rw [round_eq]
  exact Int.floor_eq_iff.mpr ⟨h1, h2⟩

theorem round2_nonneg (x : ℝ) (hx : 0 ≤ x) : 0 ≤ round2 x := by
  unfold round2
  have h : (0 : ℤ) ≤ round (x * 100) := by
    rw [round_eq]
    refine Int.le_floor.mpr ?_
    push_cast
    linarith
  have h' : (0 : ℝ) ≤ ((round (x * 100) : ℤ) : ℝ) := by exact_mod_cast h
  linarith

theorem sqrt_two_gt : (1.414 : ℝ) < Real.sqrt 2 := by
  have h2 : Real.sqrt 2 ^ 2 = 2 := Real.sq_sqrt (by norm_num)
  nlinarith [Real.sqrt_nonneg 2]

theorem sqrt_two_lt : Real.sqrt 2 < (1.4143 : ℝ) := by
  have h2 : Real.sqrt 2 ^ 2 = 2 := Real.sq_sqrt (by norm_num)
  nlinarith [Real.sqrt_nonneg 2]

theorem round2_safety_example : round2 ((1.96 : ℝ) * Real.sqrt 2) = 2.77 := by
  unfold round2
  have h : round ((1.96 : ℝ) * Real.sqrt 2 * 100) = 277 := by
    apply round_eq_of_bounds
    · push_cast
      nlinarith [sqrt_two_gt]
    · push_cast
      nlinarith [sqrt_two_lt]
  rw [h]
  norm_num

theorem simulate_eq_ok (item : String) (lt : List ℤ) (dd : List DemandRecord)
    (start : ℕ) (draws : ℕ → ℚ) (qs : List ℚ)
    (hp : pluckQ DemandRecord.quantity dd = some qs) :
    simulate_lead_time item lt dd start draws =
      Except.ok
        { item_id := item,
          average_lead_time :=
            Option.map round2q (npMeanNan (lt.map (fun z => (z : ℚ)))),
          std_lead_time :=
            Option.map round2 (npStdNan (lt.map (fun z => (z : ℚ)))),
          simulation_results := (List.range 30).map (fun day =>
            { date := start + day,
              inventory_level := round2q (invAfter draws (day + 1)) }) } := by
  unfold simulate_lead_time
  rw [hp]

theorem simulate_ok_inv (item : String) (lt : List ℤ) (dd : List DemandRecord)
    (start : ℕ) (draws : ℕ → ℚ) (res : SimResult)
    (h : simulate_lead_time item lt dd start draws = Except.ok res) :
    res = { item_id := item,
            average_lead_time :=
              Option.map round2q (npMeanNan (lt.map (fun z => (z : ℚ)))),
            std_lead_time :=
              Option.map round2 (npStdNan (lt.map (fun z => (z : ℚ)))),
            simulation_results := (List.range 30).map (fun day =>
              { date := start + day,
                inventory_level := round2q (invAfter draws (day + 1)) }) } := by
  cases hp : pluckQ DemandRecord.quantity dd with
  | none => unfold simulate_lead_time at h; rw [hp] at h; simp at h
  | some qs =>
    rw [simulate_eq_ok item lt dd start draws qs hp] at h
    exact (Except.ok.injEq _ _).mp h.symm

/-- C1 counterexample: a call of `simulate_lead_time` with an empty
`lead_times` sequence (and one well-formed demand record) does not fail —
it returns a `SimulationResult` (`np.mean([])` yields NaN, not an error). -/
theorem c1_counterexample_no_failure :
    (simulate_lead_time "A" [] [{ quantity := some 5 }] 0
      (fun _ => 0)).toOption.isSome = true := rfl

/-- C1 (amended): `simulate_lead_time` performs no emptiness check on its
inputs.  Whenever every demand record carries `quantity` (in particular for
an empty `demand_data`), the call succeeds for every `lead_times` sequence,
and when `lead_times` is empty the reported lead-time statistics are NaN
(modelled `none`) instead of an `EmptyInputError` failure. -/
theorem c1_no_emptiness_check (item : String) (lt : List ℤ) (dd : List DemandRecord)
    (start : ℕ) (draws : ℕ → ℚ) (hq : ∀ r ∈ dd, (r.quantity).isSome) :
    ∃ res, simulate_lead_time item lt dd start draws = Except.ok res ∧
      (lt = [] → res.average_lead_time = none ∧ res.std_lead_time = none) := by
  obtain ⟨qs, hp⟩ := pluckQ_exists_of_isSome DemandRecord.quantity dd hq
  refine ⟨_, simulate_eq_ok item lt dd start draws qs hp, ?_⟩
  intro hlt
  subst hlt
  simp [npMeanNan, npStdNan]

/-- C1 witness: the amended theorem at a concrete input. -/
theorem c1_no_emptiness_check_witness :
    (∀ r ∈ [({ quantity := some 5 } : DemandRecord)], (r.quantity).isSome) ∧
    (∃ res, simulate_lead_time "B" [] [{ quantity := some 5 }] 1 (fun _ => 2) =
        Except.ok res ∧
      (([] : List ℤ) = [] → res.average_lead_time = none ∧ res.std_lead_time = none)) :=
  ⟨by decide, c1_no_emptiness_check "B" [] [{ quantity := some 5 }] 1 (fun _ => 2)
    (by decide)⟩

/-- C4: with valid non-empty inputs, `simulate_lead_time` succeeds and the
returned day sequence has exactly 30 entries whose dates are the call-time
date plus 0, 1, ..., 29 days, in strictly increasing chronological order. -/
theorem c4_thirty_days (item : String) (lt : List ℤ) (dd : List DemandRecord)
    (start : ℕ) (draws : ℕ → ℚ) (_h1 : lt ≠ []) (_h2 : dd ≠ [])
    (hq : ∀ r ∈ dd, (r.quantity).isSome) :
    ∃ res, simulate_lead_time item lt dd start draws = Except.ok res ∧
      res.simulation_results.length = 30 ∧
      res.simulation_results.map SimDay.date = (List.range 30).map (fun d => start + d) ∧
      res.simulation_results.Pairwise (fun a b => a.date < b.date) := by
  obtain ⟨qs, hp⟩ := pluckQ_exists_of_isSome DemandRecord.quantity dd hq
  refine ⟨_, simulate_eq_ok item lt dd start draws qs hp, ?_, ?_, ?_⟩
  · simp
  · simp [List.map_map]
  · refine List.pairwise_map.mpr ?_
    refine List.Pairwise.imp ?_ (List.pairwise_lt_range 30)
    intro a b hab
    simpa using hab

/-- C4 witness: the theorem at a concrete input. -/
theorem c4_thirty_days_witness :
    (([1] : List ℤ) ≠ []) ∧ (([{ quantity := some 1 }] : List DemandRecord) ≠ []) ∧
    (∀ r ∈ [({ quantity := some 1 } : DemandRecord)], (r.quantity).isSome) ∧
    (∃ res, simulate_lead_time "A" [1] [{ quantity := some 1 }] 7 (fun _ => 0) =
        Except.ok res ∧
      res.simulation_results.length = 30 ∧
      res.simulation_results.map SimDay.date = (List.range 30).map (fun d => 7 + d) ∧
      res.simulation_results.Pairwise (fun a b => a.date < b.date)) :=
  ⟨by decide, by decide, by decide,
    c4_thirty_days "A" [1] [{ quantity := some 1 }] 7 (fun _ => 0)
      (by decide) (by decide) (by decide)⟩

/-- C5: on every simulated day `d`, the recorded entry is the rounded value
of the state obtained by subtracting the drawn demand and then adding 100
exactly when (and only when) the intermediate inventory is strictly below
the reorder threshold 20 — replenishment takes effect the same day, before
the level is recorded. -/
theorem c5_day_transition (item : String) (lt : List ℤ) (dd : List DemandRecord)
    (start : ℕ) (draws : ℕ → ℚ) (res : SimResult)
    (h : simulate_lead_time item lt dd start draws = Except.ok res)
    (d : ℕ) (hd : d < 30) :
    res.simulation_results[d]? =
      some { date := start + d,
             inventory_level := round2q (if invAfter draws d - draws d < 20
               then invAfter draws d - draws d + 100
               else invAfter draws d - draws d) } ∧
    (invAfter draws d - draws d < 20 ↔
      invAfter draws (d + 1) = invAfter draws d - draws d + 100) := by
  rw [simulate_ok_inv item lt dd start draws res h]
  constructor
  · simp only [List.getElem?_map, List.getElem?_range hd, Option.map_some']
    simp [invAfter, simStep]
  · constructor
    · intro hlt
      simp [invAfter, simStep, if_pos hlt]
    · intro heq
      by_contra hlt
      rw [invAfter, simStep, if_neg hlt] at heq
      linarith

/-- C5 witness: the theorem at a concrete input (day 3, constant draws). -/
theorem c5_day_transition_witness :
    ∃ res, simulate_lead_time "A" [2] [{ quantity := some 4 }] 0 (fun _ => 1) =
        Except.ok res ∧
      (res.simulation_results[3]? =
        some { date := 0 + 3,
               inventory_level := round2q (if invAfter (fun _ => 1) 3 - 1 < 20
                 then invAfter (fun _ => 1) 3 - 1 + 100
                 else invAfter (fun _ => 1) 3 - 1) } ∧
      (invAfter (fun _ => 1) 3 - 1 < 20 ↔
        invAfter (fun _ => 1) 4 = invAfter (fun _ => 1) 3 - 1 + 100)) :=
  ⟨_, rfl, c5_day_transition "A" [2] [{ quantity := some 4 }] 0 (fun _ => 1) _ rfl 3
    (by decide)⟩

/-- C9: the simulated 30-day trajectory does not depend on `lead_times` —
for the same demand data and the same realized demand draws, any two
non-empty lead-time sequences produce identical per-day inventory levels
(the lead-time statistics feed only the reported average and std fields). -/
theorem c9_leadtime_noninterference (item : String) (lt1 lt2 : List ℤ)
    (dd : List DemandRecord) (start : ℕ) (draws : ℕ → ℚ) (res1 res2 : SimResult)
    (_h1 : lt1 ≠ []) (_h2 : lt2 ≠ [])
    (ha : simulate_lead_time item lt1 dd start draws = Except.ok res1)
    (hb : simulate_lead_time item lt2 dd start draws = Except.ok res2) :
    res1.simulation_results = res2.simulation_results ∧
    res1.item_id = res2.item_id := by
  rw [simulate_ok_inv item lt1 dd start draws res1 ha,
    simulate_ok_inv item lt2 dd start draws res2 hb]
  exact ⟨rfl, rfl⟩

/-- C9 witness: two different lead-time sequences, same demand data and
draws, at a concrete input. -/
theorem c9_leadtime_noninterference_witness :
    ∃ res1 res2,
      simulate_lead_time "A" [1] [{ quantity := some 1 }] 0 (fun _ => 3) =
        Except.ok res1 ∧
      simulate_lead_time "A" [2, 9] [{ quantity := some 1 }] 0 (fun _ => 3) =
        Except.ok res2 ∧
      (res1.simulation_results = res2.simulation_results ∧
        res1.item_id = res2.item_id) :=
  ⟨_, _, rfl, rfl,
    c9_leadtime_noninterference "A" [1] [2, 9] [{ quantity := some 1 }] 0
      (fun _ => 3) _ _ (by decide) (by decide) rfl rfl⟩

/-- C10: each loop iteration applies replenishment at most once (the state
moves to `inv - demand + 100` or to `inv - demand`, never more); with a
large enough single-day draw the recorded level stays below the reorder
threshold 20 — here it is even negative (-100) despite the +100. -/
theorem c10_at_most_one_replenishment :
    (∀ (draws : ℕ → ℚ) (d : ℕ),
      invAfter draws (d + 1) = invAfter draws d - draws d + 100 ∨
      invAfter draws (d + 1) = invAfter draws d - draws d) ∧
    (∃ res, simulate_lead_time "A" [1] [{ quantity := some 5 }] 0 (fun _ => 300) =
        Except.ok res ∧
      res.simulation_results[0]? = some { date := 0, inventory_level := -100 } ∧
      (-100 : ℚ) < 20) := by
  constructor
  · intro draws d
    by_cases hlt : invAfter draws d - draws d < 20
    · left; rw [invAfter, simStep, if_pos hlt]
    · right; rw [invAfter, simStep, if_neg hlt]
  · refine ⟨_, rfl, ?_, by norm_num⟩
    have h0 : (0 : ℕ) < 30 := by norm_num
    simp only [List.getElem?_map, List.getElem?_range h0, Option.map_some',
      Option.some.injEq]
    have hinv : invAfter (fun _ => 300) (0 + 1) = -100 := by
      norm_num [invAfter, simStep]
    rw [hinv]
    norm_num [round2q, round_eq, Int.floor_eq_iff]

theorem optimize_eq_ok (item : String) (dsl : ℚ) (body : List HistoricalRecord)
    (demands : List ℚ) (hp : pluckQ HistoricalRecord.demand body = some demands)
    (hne : body ≠ []) :
    optimize_safety_stock item dsl (Upstream.response 200 body) =
      Except.ok
        { item_id := item,
          safety_stock := round2 ((1.96 : ℝ) * npStd demands),
          average_demand := round2q (npMean demands),
          std_demand := round2 (npStd demands),
          service_level := dsl,
          data_points := body.length } := by
  have hb : body.isEmpty = false := by
    cases body with
    | nil => exact absurd rfl hne
    | cons r rs => rfl
  have hd : demands.isEmpty = false := by
    have hlen := pluckQ_length HistoricalRecord.demand body demands hp
    cases demands with
    | nil =>
      cases body with
      | nil => exact absurd rfl hne
      | cons r rs => simp at hlen
    | cons q qs => rfl
  unfold optimize_safety_stock
  simp [hp, hb, hd]

/-- C2: for any received non-empty well-formed historical demand sequence and
any two caller-supplied service levels, `optimize_safety_stock` succeeds with
`safety_stock = round(1.96 * stdDev, 2)` — the multiplier is the fixed
constant 1.96, the safety stock is identical under both service levels, and
the caller's `desired_service_level` and `item_id` are echoed verbatim. -/
theorem c2_fixed_z_formula (item : String) (dsl dsl2 : ℚ)
    (body : List HistoricalRecord) (hne : body ≠ [])
    (hok : ∀ r ∈ body, (r.demand).isSome) :
    ∃ demands r r2,
      pluckQ HistoricalRecord.demand body = some demands ∧
      optimize_safety_stock item dsl (Upstream.response 200 body) = Except.ok r ∧
      optimize_safety_stock item dsl2 (Upstream.response 200 body) = Except.ok r2 ∧
      r.safety_stock = round2 ((1.96 : ℝ) * npStd demands) ∧
      r.service_level = dsl ∧
      r.item_id = item ∧
      r2.safety_stock = r.safety_stock := by
  obtain ⟨demands, hp⟩ := pluckQ_exists_of_isSome HistoricalRecord.demand body hok
  exact ⟨demands, _, _, hp, optimize_eq_ok item dsl body demands hp hne,
    optimize_eq_ok item dsl2 body demands hp hne, rfl, rfl, rfl, rfl⟩

/-- C2 witness: the theorem at a concrete input. -/
theorem c2_fixed_z_formula_witness :
    (([{ demand := some 10 }] : List HistoricalRecord) ≠ []) ∧
    (∀ r ∈ [({ demand := some 10 } : HistoricalRecord)], (r.demand).isSome) ∧
    (∃ demands r r2,
      pluckQ HistoricalRecord.demand [{ demand := some 10 }] = some demands ∧
      optimize_safety_stock "X" (42 / 100) (Upstream.response 200 [{ demand := some 10 }]) =
        Except.ok r ∧
      optimize_safety_stock "X" (9 / 10) (Upstream.response 200 [{ demand := some 10 }]) =
        Except.ok r2 ∧
      r.safety_stock = round2 ((1.96 : ℝ) * npStd demands) ∧
      r.service_level = 42 / 100 ∧
      r.item_id = "X" ∧
      r2.safety_stock = r.safety_stock) :=
  ⟨by decide, by decide,
    c2_fixed_z_formula "X" (42 / 100) (9 / 10) [{ demand := some 10 }]
      (by decide) (by decide)⟩

/-- C6: whenever `optimize_safety_stock` returns a result, its
`safety_stock` is non-negative (1.96 times a square root, rounded). -/
theorem c6_safety_stock_nonneg (item : String) (dsl : ℚ) (up : Upstream)
    (r : SafetyStockResult)
    (h : optimize_safety_stock item dsl up = Except.ok r) : 0 ≤ r.safety_stock := by
  cases up with
  | clientError msg => simp [optimize_safety_stock] at h
  | response status body =>
    unfold optimize_safety_stock at h
    simp only [] at h
    split at h
    · simp at h
    · split at h
      · simp at h
      · split at h
        · simp at h
        · split at h
          · simp at h
          · simp only [Except.ok.injEq] at h
            subst h
            refine round2_nonneg _ ?_
            exact mul_nonneg (by norm_num) (Real.sqrt_nonneg _)

/-- C6 witness: the theorem at a concrete input. -/
theorem c6_safety_stock_nonneg_witness :
    ∃ r, optimize_safety_stock "A" (1 / 2) (Upstream.response 200 [{ demand := some 10 }]) =
        Except.ok r ∧ 0 ≤ r.safety_stock :=
  ⟨_, rfl, c6_safety_stock_nonneg "A" (1 / 2)
    (Upstream.response 200 [{ demand := some 10 }]) _ rfl⟩

theorem npVar_example : npVar [8, 12, 10, 10] = 2 := by
  norm_num [npVar, npMean]

theorem npStd_example : npStd [8, 12, 10, 10] = Real.sqrt 2 := by
  rw [npStd, npVar_example]
  norm_num

/-- C3: the statistics estimator agrees with the spec's population mean and
population standard deviation (dividing by the sample size `n`, not `n - 1`)
on every demand sequence; in particular for values `[8, 12, 10, 10]` the
mean is 10, the variance is `8 / 4 = 2`, the standard deviation is
`√2 ≈ 1.414`, and the resulting safety stock is `2.77`. -/
theorem c3_population_statistics :
    (∀ l : List ℚ, npMean l = specPopMean l ∧ npStd l = specPopStd l) ∧
    npMean [8, 12, 10, 10] = 10 ∧
    npVar [8, 12, 10, 10] = 2 ∧
    npStd [8, 12, 10, 10] = Real.sqrt 2 ∧
    (1.414 : ℝ) < npStd [8, 12, 10, 10] ∧
    npStd [8, 12, 10, 10] < (1.4143 : ℝ) ∧
    ∃ r, optimize_safety_stock "ITEM" (95 / 100)
        (Upstream.response 200
          [{ demand := some 8 }, { demand := some 12 },
           { demand := some 10 }, { demand := some 10 }]) = Except.ok r ∧
      r.safety_stock = 2.77 := by
  refine ⟨?_, by norm_num [npMean], npVar_example, npStd_example,
    npStd_example ▸ sqrt_two_gt, npStd_example ▸ sqrt_two_lt, ?_⟩
  · intro l
    refine ⟨rfl, ?_⟩
    rw [npStd, npVar, specPopStd, specPopMean, npMean]
    push_cast
    rfl
  · have hp : pluckQ HistoricalRecord.demand
        [{ demand := some 8 }, { demand := some 12 },
         { demand := some 10 }, { demand := some 10 }] = some [8, 12, 10, 10] := rfl
    refine ⟨_, optimize_eq_ok "ITEM" (95 / 100) _ [8, 12, 10, 10] hp (by decide), ?_⟩
    show round2 ((1.96 : ℝ) * npStd [8, 12, 10, 10]) = 2.77
    rw [npStd_example, round2_safety_example]

/-- C7: a record lacking its expected field makes the operation fail instead
of returning a result — `optimize_safety_stock` fails on a received record
lacking `demand` (wrapped `KeyError`, modelled `invalidFormat "demand"`), and
`simulate_lead_time` fails on a demand record lacking `quantity` (uncaught
`KeyError`, modelled `keyError "quantity"`). -/
theorem c7_missing_field_errors :
    (∀ (item : String) (dsl : ℚ) (body : List HistoricalRecord),
      (∃ r ∈ body, r.demand = none) →
      optimize_safety_stock item dsl (Upstream.response 200 body) =
        Except.error (ErpError.invalidFormat "demand")) ∧
    (∀ (item : String) (lt : List ℤ) (dd : List DemandRecord) (start : ℕ)
      (draws : ℕ → ℚ),
      (∃ r ∈ dd, r.quantity = none) →
      simulate_lead_time item lt dd start draws =
        Except.error (SimError.keyError "quantity")) := by
  constructor
  · intro item dsl body hmiss
    have hp : pluckQ HistoricalRecord.demand body = none :=
      (pluckQ_eq_none_iff HistoricalRecord.demand body).mpr hmiss
    have hb : body.isEmpty = false := by
      obtain ⟨r, hr, _⟩ := hmiss
      cases body with
      | nil => simp at hr
      | cons a as => rfl
    unfold optimize_safety_stock
    simp [hp, hb]
  · intro item lt dd start draws hmiss
    have hp : pluckQ DemandRecord.quantity dd = none :=
      (pluckQ_eq_none_iff DemandRecord.quantity dd).mpr hmiss
    unfold simulate_lead_time
    rw [hp]

/-- C7 witness: both operations at concrete malformed inputs. -/
theorem c7_missing_field_errors_witness :
    (∃ r ∈ [({ demand := none } : HistoricalRecord)], r.demand = none) ∧
    (∃ r ∈ [({ quantity := none } : DemandRecord)], r.quantity = none) ∧
    optimize_safety_stock "A" (1 / 2) (Upstream.response 200 [{ demand := none }]) =
      Except.error (ErpError.invalidFormat "demand") ∧
    simulate_lead_time "A" [1] [{ quantity := none }] 0 (fun _ => 0) =
      Except.error (SimError.keyError "quantity") :=
  ⟨⟨{ demand := none }, by decide, rfl⟩, ⟨{ quantity := none }, by decide, rfl⟩,
    c7_missing_field_errors.1 "A" (1 / 2) [{ demand := none }]
      ⟨{ demand := none }, by decide, rfl⟩,
    c7_missing_field_errors.2 "A" [1] [{ quantity := none }] 0 (fun _ => 0)
      ⟨{ quantity := none }, by decide, rfl⟩⟩

/-- C8: every failure of `optimize_safety_stock` carries an error whose kind
(per the spec's §7 taxonomy) identifies its cause: upstream-retrieval
failures (client error or non-200 status) map to `upstreamUnavailable`,
an empty body to `emptyData`, and a record lacking `demand` to
`malformedRecord` — so the caller can distinguish the failure classes, and
upstream failures are distinguishable from the core kinds. -/
theorem c8_error_kind_identifies_cause (item : String) (dsl : ℚ) (up : Upstream)
    (e : ErpError) (h : optimize_safety_stock item dsl up = Except.error e) :
    causeKind up = some (errKind e) := by
  cases up with
  | clientError msg =>
    simp only [optimize_safety_stock, Except.error.injEq] at h
    subst h
    rfl
  | response status body =>
    by_cases hs : status = 200
    · subst hs
      by_cases hb : body.isEmpty = true
      · unfold optimize_safety_stock at h
        simp [hb] at h
        subst h
        simp [causeKind, hb, errKind]
      · cases hp : pluckQ HistoricalRecord.demand body with
        | none =>
          unfold optimize_safety_stock at h
          simp [hb, hp] at h
          subst h
          have hany : body.any (fun r => r.demand.isNone) = true := by
            obtain ⟨r, hr, hn⟩ := (pluckQ_eq_none_iff HistoricalRecord.demand body).mp hp
            refine List.any_eq_true.mpr ⟨r, hr, ?_⟩
            simp [hn]
          simp [causeKind, hb, hany, errKind]
        | some demands =>
          have hd : demands.isEmpty = false := by
            have hlen := pluckQ_length HistoricalRecord.demand body demands hp
            cases demands with
            | nil =>
              cases body with
              | nil => simp at hb
              | cons a as => simp at hlen
            | cons q qs => rfl
          unfold optimize_safety_stock at h
          simp [hb, hp, hd] at h
    · unfold optimize_safety_stock at h
      simp [hs] at h
      subst h
      simp [causeKind, hs, errKind]

/-- C8 witness: a concrete upstream failure and the kind its error maps to. -/
theorem c8_error_kind_identifies_cause_witness :
    optimize_safety_stock "A" (1 / 2) (Upstream.clientError "down") =
      Except.error (ErpError.clientError "down") ∧
    causeKind (Upstream.clientError "down") =
      some (errKind (ErpError.clientError "down")) :=
  ⟨rfl, c8_error_kind_identifies_cause "A" (1 / 2) (Upstream.clientError "down")
    (ErpError.clientError "down") rfl⟩
